import Mathlib

set_option maxRecDepth 8000

/-!
Verification development for a client-side note-taking application.

The embedded code is the application's core:
* the zustand note store (`useNotesStore`): data model, selectors
  (`getActiveNote`, `getNoteById`, `getFilteredNotes`, `getTotalNoteCount`)
  and actions (`addNote`, `updateNote`, `deleteNote`, `setActiveNote`,
  `addMessage`), together with its seeded initial state;
* the autosave/debounce coordination of the note editing component,
  modelled as a discrete event machine;
* the rule-based chat response matcher (`generateIntelligentResponse`).

Conventions of the shallow embedding:
* The identifier generator produces unique opaque strings
  (`Math.random().toString(36).substr(2, 9)`); it is modelled as a counter
  `c : Nat` threaded through the operations, each call returning the current
  counter value as the fresh id and bumping the counter.  Note ids are
  therefore `Nat` in the model; nothing in the embedded code inspects the
  text of an id, only equality.
* `Date.now()` is modelled as an explicit `now : Nat` argument.
* `Math.floor(Math.random() * list.length)` is modelled as `r % list.length`
  for an arbitrary injected `r : Nat` (the spec requires an injectable
  random source); each call of the matcher performs at most one draw.
-/

/-- A single character of text, written via its code so that the source file
needs no literal apostrophe: the apostrophe character U+0027. -/
def apos : String := String.singleton (Char.ofNat 39)

/-- Prefix test on character lists: `isSubAt pat s` is true when `pat` occurs
at the very start of `s`.  Helper for the substring test `hasSub`. -/
def isSubAt : List Char → List Char → Bool
  | [], _ => true
  | _ :: _, [] => false
  | p :: ps, c :: cs => p == c && isSubAt ps cs

/-- Substring test on character lists, the model of JavaScript
`String.prototype.includes`: true when `pat` occurs contiguously in `s`. -/
def hasSub : List Char → List Char → Bool
  | [], pat => isSubAt pat []
  | c :: rest, pat => isSubAt pat (c :: rest) || hasSub rest pat

/-- Model of JavaScript `s.includes(pat)`: `pat` is a contiguous substring
of `s`. -/
def strContains (s pat : String) : Bool :=
  hasSub s.data pat.data

/-- Model of JavaScript `s.toLowerCase()`: lowercase character by character.
(Character-list implementation, so that it evaluates inside the kernel.) -/
def strToLower (s : String) : String :=
  ⟨s.data.map Char.toLower⟩

/-- Model of JavaScript `s.trim()`: drop leading and trailing whitespace. -/
def strTrim (s : String) : String :=
  ⟨((s.data.dropWhile Char.isWhitespace).reverse.dropWhile Char.isWhitespace).reverse⟩

/-- Model of JavaScript `s.startsWith(pre)`. -/
def strStartsWith (s pre : String) : Bool :=
  isSubAt pre.data s.data

/-- Model of JavaScript `s.substring(0, n)`: the first `n` characters, or all
of `s` when it is shorter. -/
def strTake (s : String) (n : Nat) : String :=
  ⟨s.data.take n⟩

/-- Model of JavaScript `array.join(sep)`. -/
def strJoin (sep : String) : List String → String
  | [] => ""
  | [x] => x
  | x :: rest => x ++ sep ++ strJoin sep rest

/-- Whether a `>` occurs somewhere in the list: decides whether the regex
`<[^>]*>` can match at a given `<`. -/
def hasGt (l : List Char) : Bool :=
  l.any (fun c => c == '>')

/-- Model of `content.replace(/<[^>]*>/g, "")` on the character list.  The
flag is true while inside a tag (skipping up to the first `>`).  At a `<`
that has a later `>` the match starts (everything through the first
following `>` is dropped); at a `<` with no later `>` the regex cannot match
there nor anywhere later, so the rest of the input is kept verbatim. -/
def stripAux : Bool → List Char → List Char
  | _, [] => []
  | true, c :: rest => if c = '>' then stripAux false rest else stripAux true rest
  | false, c :: rest =>
    if c = '<' then
      if hasGt rest then stripAux true rest else c :: rest
    else c :: stripAux false rest

/-- Model of `s.replace(/<[^>]*>/g, "")`, the markup stripper used by
`getFilteredNotes` before searching note content. -/
def stripHtml (s : String) : String :=
  ⟨stripAux false s.data⟩

/-- Sender of a chat message (`"user" | "ai"`). -/
inductive Sender where
  | user
  | ai
deriving DecidableEq

/-- The `Message` interface of the store: a chat message attached to a note. -/
structure Message where
  id : Nat
  content : String
  sender : Sender
  timestamp : Nat
deriving DecidableEq

/-- The `Note` interface of the store. -/
structure Note where
  id : Nat
  title : String
  content : String
  chatHistory : List Message
  lastUpdated : Nat
deriving DecidableEq

/-- The `NotesState` part of the store: the note collection and the
active-note selection. -/
structure NotesState where
  notes : List Note
  activeNoteId : Option Nat
deriving DecidableEq

/-- The argument of `updateNote`: `Partial<Omit<Note, "id">>` restricted to
the fields the action reads (`title`, `content`, `chatHistory`); a field is
`none` when the caller did not provide it. -/
structure UpdateData where
  title : Option String := none
  content : Option String := none
  chatHistory : Option (List Message) := none
deriving DecidableEq

/-- Content of the first seeded note. -/
def welcomeContent : String :=
  "<h1>Welcome to the Notes Editor</h1><p>This is your first note. You can edit it or create a new one.</p><ul><li>Click the edit button to start editing</li><li>Use the AI button to chat with AI</li></ul>"

/-- Content of the second seeded note. -/
def tiptapContent : String :=
  "<h1>TipTap Editor</h1><p>This editor supports rich text formatting:</p><h2>Headings</h2><h3>Subheadings</h3><ul><li>Bullet lists</li><li>With multiple items</li></ul><ol><li>Numbered lists</li><li>Work too!</li></ol>"

/-- `createDefaultNotes()`: builds the two seed notes, drawing two fresh ids
from the generator (modelled by the counter `c`); returns the notes and the
advanced counter.  The second seed note's `lastUpdated` is
`Date.now() - 1000 * 60 * 5`. -/
def createDefaultNotes (c : Nat) (now : Nat) : List Note × Nat :=
  ([ { id := c, title := "Welcome to Notes Editor", content := welcomeContent,
       chatHistory := [], lastUpdated := now },
     { id := c + 1, title := "Getting Started with TipTap", content := tiptapContent,
       chatHistory := [], lastUpdated := now - 300000 } ], c + 2)

/-- The seeded initial store state.  The source initialises
`notes: createDefaultNotes()` and `activeNoteId: createDefaultNotes()[0].id`,
i.e. it calls `createDefaultNotes()` a second time to obtain the active id;
the model mirrors this by running the seed constructor twice on the threaded
id counter, exactly as the generator would. -/
def initialStore (now : Nat) : NotesState :=
  let seeded := createDefaultNotes 0 now
  let second := createDefaultNotes seeded.2 now
  { notes := seeded.1, activeNoteId := (second.1.head?).map (fun n => n.id) }

/-- `getActiveNote()`: `notes.find((note) => note.id === activeNoteId) || null`.
A `null` `activeNoteId` matches no note id, hence the `none` short-circuit. -/
def getActiveNote (s : NotesState) : Option Note :=
  match s.activeNoteId with
  | none => none
  | some a => s.notes.find? (fun n => n.id == a)

/-- `getNoteById(id)`: `notes.find((note) => note.id === id)`. -/
def getNoteById (s : NotesState) (id : Nat) : Option Note :=
  s.notes.find? (fun n => n.id == id)

/-- The per-note match used by `getFilteredNotes`: case-insensitive substring
match of the search term against the title, or against the content with
markup stripped. -/
def noteMatches (lowerCaseSearchTerm : String) (n : Note) : Bool :=
  strContains (strToLower n.title) lowerCaseSearchTerm ||
    strContains (strToLower (stripHtml n.content)) lowerCaseSearchTerm

/-- `getFilteredNotes(searchTerm)`: all notes when the trimmed term is empty
(`!searchTerm.trim()`), otherwise the filter by `noteMatches` in insertion
order. -/
def getFilteredNotes (s : NotesState) (searchTerm : String) : List Note :=
  if strTrim searchTerm = "" then s.notes
  else s.notes.filter (noteMatches (strToLower searchTerm))

/-- `getTotalNoteCount()`. -/
def getTotalNoteCount (s : NotesState) : Nat :=
  s.notes.length

/-- The title actually stored by `addNote`: `title || "Untitled Note"`, which
defaults exactly when the argument is omitted (`none`) or the empty string
(the only falsy string). -/
def resolveTitle : Option String → String
  | none => "Untitled Note"
  | some t => if t = "" then "Untitled Note" else t

/-- `addNote(title?)`: creates the note with a fresh id (counter `c`),
content `"<p></p>"`, empty chat history and `lastUpdated = now`, pushes it
onto `notes`, makes it active, and returns its id (together with the new
state and the advanced id counter). -/
def addNote (s : NotesState) (title : Option String) (c : Nat) (now : Nat) :
    NotesState × Nat × Nat :=
  let newNote : Note :=
    { id := c, title := resolveTitle title, content := "<p></p>",
      chatHistory := [], lastUpdated := now }
  ({ notes := s.notes ++ [newNote], activeNoteId := some newNote.id }, newNote.id, c + 1)

/-- The change test of `updateNote`:
`(data.title && data.title !== note.title) ||
 (data.content && data.content !== note.content) || data.chatHistory`.
A provided empty string is falsy and never counts as a change; a provided
`chatHistory` is an array, always truthy, and always counts as a change. -/
def updChanged (n : Note) (d : UpdateData) : Bool :=
  (match d.title with
   | some t => t != "" && t != n.title
   | none => false) ||
  (match d.content with
   | some t => t != "" && t != n.content
   | none => false) ||
  d.chatHistory.isSome

/-- The note written by `updateNote` when the change test passes:
`{ ...note, ...data, lastUpdated: Date.now() }`. -/
def applyUpd (n : Note) (d : UpdateData) (now : Nat) : Note :=
  { id := n.id,
    title := d.title.getD n.title,
    content := d.content.getD n.content,
    chatHistory := d.chatHistory.getD n.chatHistory,
    lastUpdated := now }

/-- Replace the first note whose id is `id` by `f` of it, leaving every other
note alone: the model of `findIndex` followed by assignment to
`state.notes[noteIndex]` (and of the no-op when `findIndex` returns `-1`). -/
def mapFirstById (id : Nat) (f : Note → Note) : List Note → List Note
  | [] => []
  | n :: rest =>
    if n.id = id then f n :: rest
    else n :: mapFirstById id f rest

/-- `updateNote(id, data)`: finds the note by id (silent no-op when absent)
and rewrites it only when `updChanged` holds. -/
def updateNote (s : NotesState) (id : Nat) (d : UpdateData) (now : Nat) : NotesState :=
  { s with notes := mapFirstById id (fun n => if updChanged n d then applyUpd n d now else n) s.notes }

/-- `deleteNote(id)`: filters the note out; then, reading the `activeNoteId`
captured before the mutation, reassigns it to the first remaining note when
the deleted id was active and notes remain, or to `null` when the collection
is now empty; otherwise leaves it alone. -/
def deleteNote (s : NotesState) (id : Nat) : NotesState :=
  let notes2 := s.notes.filter (fun n => n.id != id)
  let active2 :=
    if s.activeNoteId = some id ∧ notes2 ≠ [] then (notes2.head?).map (fun n => n.id)
    else if notes2 = [] then none
    else s.activeNoteId
  { notes := notes2, activeNoteId := active2 }

/-- `setActiveNote(id)`: unconditional assignment, no existence check. -/
def setActiveNote (s : NotesState) (id : Nat) : NotesState :=
  { s with activeNoteId := some id }

/-- `addMessage(noteId, message)`: builds the message with a fresh id
(counter `c`) and timestamp `now` before the lookup, then appends it to the
note's chat history and refreshes `lastUpdated`; silent no-op on a missing
note id.  Returns the new state and the advanced id counter. -/
def addMessage (s : NotesState) (noteId : Nat) (content : String) (sender : Sender)
    (c : Nat) (now : Nat) : NotesState × Nat :=
  let newMessage : Message := { id := c, content := content, sender := sender, timestamp := now }
  ({ s with
      notes := mapFirstById noteId
        (fun n => { n with chatHistory := n.chatHistory ++ [newMessage], lastUpdated := now })
        s.notes },
   c + 1)

/-- The store invariant claimed by the spec, as a boolean: `activeNoteId` is
`null` exactly when `notes` is empty, and otherwise names a present note. -/
def storeInvB (s : NotesState) : Bool :=
  match s.activeNoteId with
  | none => s.notes.isEmpty
  | some a => s.notes.any (fun n => n.id == a)

/-- `NOTE_TOPICS`: the fixed topic vocabulary scanned by the matcher. -/
def NOTE_TOPICS : List String :=
  ["formatting", "headings", "bold", "italic", "lists", "bullet points",
   "markdown", "save", "autosave", "keyboard shortcuts", "dark mode",
   "images", "links", "organize", "delete"]

/-- `WRITING_TIPS`: the fixed list of writing tips. -/
def WRITING_TIPS : List String :=
  [ "Use headings to create a clear structure in your notes",
    "Break down complex ideas into bullet points for easier comprehension",
    "Highlight key concepts or terms using bold or italic formatting",
    "Use numbered lists for step-by-step processes or sequences",
    "Keep paragraphs short and focused on a single idea",
    "Add links to external resources for deeper research",
    "Use consistent formatting for similar types of information",
    "Include images or diagrams to visualize complex concepts",
    "Use markdown for code snippets or technical content",
    "Review and reorganize your notes periodically for better clarity" ]

/-- One entry of `PRODUCTIVITY_TECHNIQUES`. -/
structure Technique where
  name : String
  description : String
deriving DecidableEq

/-- `PRODUCTIVITY_TECHNIQUES`: the fixed list of study techniques. -/
def PRODUCTIVITY_TECHNIQUES : List Technique :=
  [ ⟨"Pomodoro Technique",
     "Work for 25 minutes, then take a 5-minute break. After 4 cycles, take a longer 15-30 minute break."⟩,
    ⟨"Cornell Note-Taking Method",
     "Divide your page into sections: notes, cues, and summary. Take notes during class, add cues later, and write a summary at the bottom."⟩,
    ⟨"Mind Mapping",
     "Create visual diagrams to connect related concepts. Start with a central idea and branch out with related thoughts."⟩,
    ⟨"Spaced Repetition",
     "Review material at increasing intervals to enhance long-term retention."⟩,
    ⟨"Feynman Technique",
     "Explain a concept in simple terms as if teaching it to someone else. This helps identify gaps in your understanding."⟩ ]

/-- `NOTE_TOPICS.filter((topic) => queryLower.includes(topic.toLowerCase()))`. -/
def detectTopics (queryLower : String) : List String :=
  NOTE_TOPICS.filter (fun t => strContains queryLower (strToLower t))

/-- Rule 2 reply when `"markdown"` was detected. -/
def markdownMentionReply : String :=
  "I noticed you mentioned markdown. This editor supports Markdown view which you can toggle with Ctrl+M. Would you like to know more about using markdown in your notes?"

/-- Rule 2 reply when `"keyboard shortcuts"` was detected. -/
def shortcutsMentionReply : String :=
  "I noticed you mentioned keyboard shortcuts. This editor supports various shortcuts like Ctrl+B for bold, Ctrl+I for italic, and Ctrl+M for markdown view. Would you like to know more?"

/-- Rule 2 reply for the formatting/bold/italic/lists group; interpolates the
detected topics joined with `", "`. -/
def formattingMentionReply (detectedTopics : List String) : String :=
  "I see you" ++ apos ++ "re interested in " ++ strJoin ", " detectedTopics ++
    ". You can access these formatting options in the toolbar above the editor. Would you like specific instructions?"

/-- The topic scan (rule 2): fires only when some topic was detected and the
query contains none of `"?"`, `"how"`, `"what"`; `none` means fall through to
the later rules. -/
def topicRule (queryLower : String) (detectedTopics : List String) : Option String :=
  if 0 < detectedTopics.length ∧ strContains queryLower "?" = false ∧
      strContains queryLower "how" = false ∧ strContains queryLower "what" = false then
    if detectedTopics.contains "markdown" then some markdownMentionReply
    else if detectedTopics.contains "keyboard shortcuts" then some shortcutsMentionReply
    else if detectedTopics.any (fun t => ["formatting", "bold", "italic", "lists"].contains t) then
      some (formattingMentionReply detectedTopics)
    else none
  else none

/-- `queryLower.match(/^(hi|hello|hey|greetings).*/)`: the anchor makes this a
starts-with test. -/
def isGreeting (queryLower : String) : Bool :=
  strStartsWith queryLower "hi" || strStartsWith queryLower "hello" ||
    strStartsWith queryLower "hey" || strStartsWith queryLower "greetings"

/-- `queryLower.match(/(thank|thanks|thank you|appreciate it|grateful).*/)`:
unanchored, so a contains test. -/
def isThanks (queryLower : String) : Bool :=
  strContains queryLower "thank" || strContains queryLower "thanks" ||
    strContains queryLower "thank you" || strContains queryLower "appreciate it" ||
    strContains queryLower "grateful"

/-- Greeting reply (rule 3). -/
def greetingReply : String :=
  "Hello! How can I assist you with your notes today?"

/-- Gratitude reply (rule 4). -/
def thanksReply : String :=
  "You" ++ apos ++ "re welcome! I" ++ apos ++ "m happy to help. Is there anything else you" ++ apos ++ "d like to know?"

/-- Rule 5 formatting answer. -/
def formatAnswer : String :=
  "You can format text using the toolbar above the editor. For bold text, select the text and click the B button or use Ctrl+B. For italic, use the I button or Ctrl+I. For underline, use the U button or Ctrl+U."

/-- Rule 5 headings answer. -/
def headingAnswer : String :=
  "To add headings, click on H1, H2, or H3 in the toolbar depending on the heading level you need. H1 is the largest heading, while H3 is the smallest."

/-- Rule 5 lists answer. -/
def listAnswer : String :=
  "You can create lists using the toolbar. Click the bullet list icon for unordered lists or the numbered list icon for ordered lists. You can also start a line with " ++ apos ++ "- " ++ apos ++ " or " ++ apos ++ "1. " ++ apos ++ " to automatically create a list."

/-- Rule 5 saving answer. -/
def saveAnswer : String :=
  "All your notes are automatically saved as you type. You don" ++ apos ++ "t need to manually save anything! If you want to force a save, you can use the Ctrl+S keyboard shortcut."

/-- Rule 5 keyboard shortcuts answer. -/
def shortcutAnswer : String :=
  "Here are some useful keyboard shortcuts:\n• Ctrl+S: Force save the current note\n• Ctrl+M: Toggle Markdown view\n• Ctrl+/: Toggle this AI chat assistant\n• Ctrl+B: Bold text\n• Ctrl+I: Italic text\n• Ctrl+U: Underline text"

/-- Rule 5 dark mode answer. -/
def themeAnswer : String :=
  "You can toggle between dark and light mode by clicking the theme toggle button in the top-right corner of the editor. Your preference will be saved for future sessions."

/-- Rule 5 links and images answer. -/
def linkAnswer : String :=
  "To add a link, select the text you want to link and click the link icon in the toolbar, then enter the URL. To add an image, click the image icon and enter the image URL."

/-- Rule 5 markdown question answer. -/
def markdownAnswer : String :=
  "This editor supports Markdown view. You can toggle between rich text and Markdown view by clicking the " ++ apos ++ "View as Markdown" ++ apos ++ " button in the top bar or using the Ctrl+M keyboard shortcut."

/-- Rule 5 writing tips answer: draws one random tip. -/
def writingTipAnswer (r : Nat) : String :=
  "Here" ++ apos ++ "s a writing tip: " ++ WRITING_TIPS.getD (r % WRITING_TIPS.length) "" ++
    ". Would you like another tip or more specific advice about a particular aspect of note-taking?"

/-- Rule 5 study techniques answer: draws one random technique. -/
def techniqueAnswer (r : Nat) : String :=
  let tq := PRODUCTIVITY_TECHNIQUES.getD (r % PRODUCTIVITY_TECHNIQUES.length) ⟨"", ""⟩
  "You might want to try the **" ++ tq.name ++ "**: " ++ tq.description ++
    " Would you like to hear about other productivity techniques?"

/-- Rule 5 general features answer. -/
def featuresAnswer : String :=
  "This notes app offers rich text editing with formatting, headings, lists, links, and images. Features include:\n• Dark/light mode\n• Markdown support\n• Auto-saving\n• AI assistant (that" ++ apos ++ "s me!)\n• Keyboard shortcuts\n\nWhat specific feature would you like to know more about?"

/-- The feature-question block (rule 5): fires only when the query contains
`"how"`, `"what"` or `"?"`; the inner categories are tried in order and the
block falls through (`none`) when none matches. -/
def questionRule (queryLower : String) (r : Nat) : Option String :=
  if strContains queryLower "how" = true ∨ strContains queryLower "what" = true ∨
      strContains queryLower "?" = true then
    if strContains queryLower "format" = true ∨ strContains queryLower "bold" = true ∨
        strContains queryLower "italic" = true ∨ strContains queryLower "underline" = true then
      some formatAnswer
    else if strContains queryLower "heading" = true ∨ strContains queryLower "title" = true ∨
        strContains queryLower "h1" = true ∨ strContains queryLower "h2" = true ∨
        strContains queryLower "h3" = true then
      some headingAnswer
    else if strContains queryLower "list" = true ∨ strContains queryLower "bullet" = true ∨
        strContains queryLower "numbered" = true then
      some listAnswer
    else if strContains queryLower "save" = true ∨ strContains queryLower "autosave" = true then
      some saveAnswer
    else if strContains queryLower "shortcut" = true ∨ strContains queryLower "keyboard" = true then
      some shortcutAnswer
    else if strContains queryLower "dark" = true ∨ strContains queryLower "light" = true ∨
        strContains queryLower "theme" = true ∨ strContains queryLower "mode" = true then
      some themeAnswer
    else if strContains queryLower "link" = true ∨ strContains queryLower "url" = true ∨
        strContains queryLower "image" = true ∨ strContains queryLower "picture" = true ∨
        strContains queryLower "photo" = true then
      some linkAnswer
    else if strContains queryLower "markdown" = true then
      some markdownAnswer
    else if strContains queryLower "writing" = true ∨ strContains queryLower "tip" = true ∨
        strContains queryLower "advice" = true ∨ strContains queryLower "improve" = true ∨
        strContains queryLower "better" = true then
      some (writingTipAnswer r)
    else if strContains queryLower "study" = true ∨ strContains queryLower "technique" = true ∨
        strContains queryLower "method" = true ∨ strContains queryLower "productivity" = true ∨
        strContains queryLower "focus" = true ∨ strContains queryLower "concentrate" = true then
      some (techniqueAnswer r)
    else if strContains queryLower "feature" = true ∨ strContains queryLower "do" = true ∨
        strContains queryLower "can" = true then
      some featuresAnswer
    else none
  else none

/-- Rule 6 meeting notes template. -/
def meetingTemplate : String :=
  "For meeting notes, try this structure:\n\n**Meeting Title**\nDate: [Date]\nParticipants: [Names]\n\n**Agenda**\n1. [Item 1]\n2. [Item 2]\n\n**Discussion Points**\n- Key point 1\n- Key point 2\n\n**Action Items**\n- [ ] Task 1 (Owner, Due Date)\n- [ ] Task 2 (Owner, Due Date)\n\n**Next Steps**\n[Future plans or follow-up]"

/-- Rule 6 lecture notes template. -/
def lectureTemplate : String :=
  "For lecture notes, try the Cornell method:\n\n**Topic: [Subject]**\nDate: [Date]\n\n**Main Notes Section:**\n- Key point 1 with details\n- Key point 2 with details\n\n**Cue Column (add after class):**\n- Questions about the material\n- Keywords and concepts\n\n**Summary (add after class):**\nBrief paragraph summarizing the key concepts"

/-- Rule 6 project planning template. -/
def projectTemplate : String :=
  "For project planning notes, try this structure:\n\n**Project Title**\n\n**Objective:**\n[Clear statement of what the project aims to achieve]\n\n**Key Deliverables:**\n1. [Deliverable 1]\n2. [Deliverable 2]\n\n**Timeline:**\n- Phase 1: [Dates]\n- Phase 2: [Dates]\n\n**Resources Needed:**\n- [Resource 1]\n- [Resource 2]\n\n**Team Members:**\n- [Name] - [Role]\n- [Name] - [Role]\n\n**Notes:**\n[Additional information]"

/-- Rule 6 daily journal template. -/
def dailyTemplate : String :=
  "For a daily journal entry, try this format:\n\n**Date: [Date]**\n\n**Today" ++ apos ++ "s Focus:**\n[Main priorities or theme for the day]\n\n**Accomplishments:**\n- [What you completed]\n- [Progress made]\n\n**Challenges:**\n- [Obstacles encountered]\n- [Problems to solve]\n\n**Insights:**\n[What you learned]\n\n**Tomorrow" ++ apos ++ "s Plan:**\n- [Task 1]\n- [Task 2]"

/-- Rule 6 generic template menu. -/
def templateMenu : String :=
  "I can suggest note templates for different purposes. Would you like a template for:\n• Meeting notes\n• Lecture notes\n• Project planning\n• Daily journal\n• Research notes\n\nJust ask for any of these specific templates!"

/-- The template block (rule 6): keyed on template-request keywords; inside,
the first matching note kind wins, else the generic menu (the block always
answers once its outer condition holds). -/
def templateRule (queryLower : String) : Option String :=
  if strContains queryLower "template" = true ∨ strContains queryLower "type of note" = true ∨
      strContains queryLower "structure" = true ∨ strContains queryLower "format for" = true then
    if strContains queryLower "meeting" = true ∨ strContains queryLower "minutes" = true then
      some meetingTemplate
    else if strContains queryLower "lecture" = true ∨ strContains queryLower "class" = true ∨
        strContains queryLower "course" = true then
      some lectureTemplate
    else if strContains queryLower "project" = true ∨ strContains queryLower "plan" = true then
      some projectTemplate
    else if strContains queryLower "daily" = true ∨ strContains queryLower "journal" = true ∨
        strContains queryLower "diary" = true then
      some dailyTemplate
    else some templateMenu
  else none

/-- Rule 7 help reply. -/
def helpReply : String :=
  "I can help you with formatting, organization, and using features of this notes app. Ask me specific questions like " ++ apos ++ "How do I create headings?" ++ apos ++ " or " ++ apos ++ "What keyboard shortcuts are available?" ++ apos ++ " or " ++ apos ++ "Do you have a template for meeting notes?" ++ apos

/-- Rule 8 organization reply. -/
def orgContextReply : String :=
  "To better organize your notes, consider using headings (H1, H2, H3) to create a clear hierarchy. You can also use bullet points for key ideas and numbered lists for sequential information or steps."

/-- Rule 8 writing reply. -/
def writingContextReply : String :=
  "For better writing, try to use clear headings and short paragraphs. The editor supports formatting that can help emphasize important points using bold or italic text. Would you like specific suggestions for improving your current note?"

/-- Rule 8 focus reply: draws one random technique. -/
def focusContextReply (r : Nat) : String :=
  let tq := PRODUCTIVITY_TECHNIQUES.getD (r % PRODUCTIVITY_TECHNIQUES.length) ⟨"", ""⟩
  "For better focus when taking notes, you might try the " ++ tq.name ++ ": " ++ tq.description

/-- The context block (rule 8): only with non-empty context; joins the
context with spaces, lowercases it, and tries the organization, writing and
focus keyword clusters in order, falling through when none matches. -/
def contextRule (context : List String) (r : Nat) : Option String :=
  if 0 < context.length then
    let recentContext := strToLower (strJoin " " context)
    if strContains recentContext "organize" = true ∨ strContains recentContext "structure" = true ∨
        strContains recentContext "arrange" = true then
      some orgContextReply
    else if strContains recentContext "write" = true ∨ strContains recentContext "writing" = true ∨
        strContains recentContext "improve" = true ∨ strContains recentContext "better" = true then
      some writingContextReply
    else if strContains recentContext "focus" = true ∨ strContains recentContext "concentrate" = true ∨
        strContains recentContext "productive" = true ∨ strContains recentContext "distract" = true then
      some (focusContextReply r)
    else none
  else none

/-- The fallback variant that echoes `query.substring(0, 30)` verbatim. -/
def echoVariant (query : String) : String :=
  "I understand you" ++ apos ++ "re asking about " ++ strTake query 30 ++
    "... Could you tell me more about what you" ++ apos ++ "re trying to achieve so I can provide more targeted assistance?"

/-- `thoughtfulResponses`: the fixed fallback list (rule 9); the second entry
interpolates the first 30 characters of the original query. -/
def thoughtfulResponses (query : String) : List String :=
  [ "That" ++ apos ++ "s an interesting question. To help you better with your notes, could you provide more specific details about what you" ++ apos ++ "re trying to accomplish?",
    echoVariant query,
    "I" ++ apos ++ "d be happy to help with that. Could you share a bit more about the specific challenge you" ++ apos ++ "re facing with your notes?",
    "Great question! The editor supports many features that might help with this. What specific outcome are you looking for?",
    "I can definitely help with that. Let me know if you" ++ apos ++ "d like me to explain any particular feature in more detail." ]

/-- `generateIntelligentResponse(query, context)` with the random draw made
explicit as `r`.  The early-return cascade of the source is modelled by
trying each rule in source order and falling through on `none`. -/
def generateIntelligentResponse (query : String) (context : List String) (r : Nat) : String :=
  let queryLower := strToLower query
  let detectedTopics := detectTopics queryLower
  match topicRule queryLower detectedTopics with
  | some rsp => rsp
  | none =>
    if isGreeting queryLower then greetingReply
    else if isThanks queryLower then thanksReply
    else
      match questionRule queryLower r with
      | some rsp => rsp
      | none =>
        match templateRule queryLower with
        | some rsp => rsp
        | none =>
          if strContains queryLower "help" = true ∨ strContains queryLower "assist" = true then
            helpReply
          else
            match contextRule context r with
            | some rsp => rsp
            | none => (thoughtfulResponses query).getD (r % (thoughtfulResponses query).length) ""

/-- One note-editing view session (`Note.tsx`), as a discrete event machine.
`title`/`content` are the local input states, `isEdited` the dirty flag,
`timer` the milliseconds remaining on the pending autosave timeout (if any),
`clock` the model of wall-clock time (`Date.now()`). -/
structure CompState where
  store : NotesState
  title : String
  content : String
  isEdited : Bool
  timer : Option Nat
  clock : Nat
deriving DecidableEq

/-- Events of the editing session: a user edit of the local title/content
(`handleTitleChange`/`handleContentChange` followed by the autosave effect),
the passage of `d` milliseconds with no user activity, and the selection of
another note in the sidebar (`setActiveNote` plus the note-change effect). -/
inductive EditorEvent where
  | edit (t c : String)
  | wait (d : Nat)
  | switchNote (id : Nat)
deriving DecidableEq

/-- A committed autosave: the `updateNote(id, { title, content })` call made
by `handleSave`, recorded as (note id, title, content). -/
abbrev Commit := Nat × String × String

/-- One step of the editing session.

* `edit`: the change handlers set the local fields and the dirty flag; the
  autosave effect re-runs (its cleanup clears any previous timeout) and,
  since `isEdited` is now true, arms a fresh 1000 ms timeout whenever an
  active note exists.
* `wait d`: if a timeout is pending and `d` reaches it, it fires
  `handleSave`, which commits `updateNote(activeNote.id, {title, content})`
  with the current local fields and clears the dirty flag; otherwise the
  remaining time just shrinks.
* `switchNote id`: `setActiveNote` reassigns the selection; the effect on
  `activeNote?.id` loads the new note's fields and clears the dirty flag
  (only when the new active note exists), and the autosave effect's cleanup
  cancels the pending timeout, which is not re-armed since `isEdited` is
  false (or no active note exists). -/
def step (cs : CompState) (ev : EditorEvent) : CompState × List Commit :=
  match ev with
  | .edit t c =>
    let timer2 : Option Nat := if (getActiveNote cs.store).isSome then some 1000 else none
    ({ cs with title := t, content := c, isEdited := true, timer := timer2 }, [])
  | .wait d =>
    match cs.timer with
    | none => ({ cs with clock := cs.clock + d }, [])
    | some r =>
      if d < r then ({ cs with clock := cs.clock + d, timer := some (r - d) }, [])
      else
        match getActiveNote cs.store with
        | some a =>
          ({ cs with
              clock := cs.clock + d, timer := none, isEdited := false,
              store := updateNote cs.store a.id
                { title := some cs.title, content := some cs.content, chatHistory := none }
                (cs.clock + r) },
           [(a.id, cs.title, cs.content)])
        | none => ({ cs with clock := cs.clock + d, timer := none }, [])
  | .switchNote id =>
    let store2 := setActiveNote cs.store id
    match getActiveNote store2 with
    | some n =>
      ({ store := store2, title := n.title, content := n.content, isEdited := false,
         timer := none, clock := cs.clock }, [])
    | none =>
      ({ cs with store := store2, timer := none }, [])

/-- Run a session over a list of events, collecting all commits in order. -/
def run : CompState → List EditorEvent → CompState × List Commit
  | cs, [] => (cs, [])
  | cs, ev :: evs =>
    let sc := step cs ev
    let rest := run sc.1 evs
    (rest.1, sc.2 ++ rest.2)

/-- An edit burst: for each `(t, c, g)`, an edit of the local fields to
`t`/`c` followed by `g` milliseconds of inactivity. -/
def burst : List (String × String × Nat) → List EditorEvent
  | [] => []
  | (t, c, g) :: rest => .edit t c :: .wait g :: burst rest

theorem isSubAt_self_append (p t : List Char) : isSubAt p (p ++ t) = true := by
  induction p with
  | nil => rfl
  | cons c cs ih => simp [isSubAt, ih]

theorem hasSub_of_isSubAt (s pat : List Char) (h : isSubAt pat s = true) :
    hasSub s pat = true := by
  cases s with
  | nil => simpa [hasSub] using h
  | cons c rest => simp [hasSub, h]

theorem hasSub_infix (pre pat post : List Char) : hasSub (pre ++ (pat ++ post)) pat = true := by
  induction pre with
  | nil => exact hasSub_of_isSubAt _ _ (isSubAt_self_append pat post)
  | cons c rest ih => simp [hasSub, ih]

theorem getD_mem {α : Type} (l : List α) (n : Nat) (d : α) (h : n < l.length) :
    l.getD n d ∈ l := by
  rw [List.getD_eq_getElem?_getD, List.getElem?_eq_getElem h]
  exact List.getElem_mem h

theorem mapFirstById_eq_self (id : Nat) (f : Note → Note) (l : List Note)
    (h : ∀ n ∈ l, n.id = id → f n = n) : mapFirstById id f l = l := by
  induction l with
  | nil => rfl
  | cons n rest ih =>
    by_cases hn : n.id = id
    · simp [mapFirstById, hn, h n (by simp) hn]
    · simp only [mapFirstById, if_neg hn]
      rw [ih (fun m hm hid => h m (by simp [hm]) hid)]

/-- Claim C1 (code bug): the spec requires that in every state reachable from
the seeded initial state by `addNote`/`deleteNote` calls, `activeNoteId` is
null exactly when `notes` is empty and otherwise names a present note.  The
code violates this at the seeded initial state itself (the empty call
sequence): `activeNoteId` is taken from a second, independent call of
`createDefaultNotes()`, whose freshly generated ids match no note in
`notes`; two notes exist, yet the dangling selection makes `getActiveNote()`
return null. -/
theorem seed_state_violates_invariant (now : Nat) :
    storeInvB (initialStore now) = false ∧
    (initialStore now).notes.map (fun n => n.id) = [0, 1] ∧
    (initialStore now).activeNoteId = some 2 ∧
    getActiveNote (initialStore now) = none :=
  ⟨rfl, rfl, rfl, rfl⟩

/-- Claim C2: `deleteNote(id)` removes the note with that id; when the
deleted id was the active one, `activeNoteId` becomes the id of the first
remaining note (`none` when the collection is now empty); deleting the last
remaining note yields `activeNoteId = none` and `getActiveNote() = none`. -/
theorem deleteNote_spec (s : NotesState) (id : Nat) :
    (deleteNote s id).notes = s.notes.filter (fun n => n.id != id) ∧
    (s.activeNoteId = some id →
      (deleteNote s id).activeNoteId
        = ((s.notes.filter (fun n => n.id != id)).head?).map (fun n => n.id)) ∧
    (s.notes.map (fun n => n.id) = [id] →
      (deleteNote s id).activeNoteId = none ∧ getActiveNote (deleteNote s id) = none) := by
  refine ⟨rfl, ?_, ?_⟩
  · intro h
    by_cases h2 : s.notes.filter (fun n => n.id != id) = []
    · simp [deleteNote, h2]
    · simp [deleteNote, h, h2]
  · intro h
    have h0 : s.notes.filter (fun n => n.id != id) = [] := by
      cases hs : s.notes with
      | nil => rfl
      | cons n rest =>
        rw [hs] at h
        cases rest with
        | nil =>
          simp at h
          simp [List.filter, h]
        | cons m rest2 => simp at h
    refine ⟨?_, ?_⟩
    · simp [deleteNote, h0]
    · simp [deleteNote, getActiveNote, h0]

/-- Witness for C2 at a concrete one-note store: deleting the sole (active)
note empties the collection, nulls the selection, and `getActiveNote`
returns none. -/
theorem deleteNote_spec_witness :
    (deleteNote ⟨[⟨0, "only", "<p></p>", [], 0⟩], some 0⟩ 0).activeNoteId = none ∧
    getActiveNote (deleteNote ⟨[⟨0, "only", "<p></p>", [], 0⟩], some 0⟩ 0) = none :=
  (deleteNote_spec ⟨[⟨0, "only", "<p></p>", [], 0⟩], some 0⟩ 0).2.2 (by decide)

/-- Claim C10: `getActiveNote()` is total: it returns none both when
`activeNoteId` is null and when it dangles (references no present note
 — a state `setActiveNote` can create, since it assigns unconditionally and
touches nothing else); being a pure selector, it leaves the state
untouched. -/
theorem getActiveNote_total_spec (s : NotesState) (i : Nat) :
    (s.activeNoteId = none → getActiveNote s = none) ∧
    (∀ a, s.activeNoteId = some a → (∀ n ∈ s.notes, n.id ≠ a) → getActiveNote s = none) ∧
    (setActiveNote s i).activeNoteId = some i ∧ (setActiveNote s i).notes = s.notes := by
  refine ⟨?_, ?_, rfl, rfl⟩
  · intro h
    simp [getActiveNote, h]
  · intro a ha hnone
    simp only [getActiveNote, ha]
    rw [List.find?_eq_none]
    intro n hn
    simp [hnone n hn]

/-- Witness for C10 at a concrete dangling state (`activeNoteId = 7`, no
note with id 7): `getActiveNote` returns none, and `setActiveNote 7` indeed
produces that dangling selection without touching `notes`. -/
theorem getActiveNote_total_witness :
    getActiveNote ⟨[⟨0, "t", "c", [], 0⟩], some 7⟩ = none ∧
    (setActiveNote ⟨[⟨0, "t", "c", [], 0⟩], some 7⟩ 7).notes = [⟨0, "t", "c", [], 0⟩] :=
  ⟨(getActiveNote_total_spec ⟨[⟨0, "t", "c", [], 0⟩], some 7⟩ 7).2.1 7 rfl (by decide),
   (getActiveNote_total_spec ⟨[⟨0, "t", "c", [], 0⟩], some 7⟩ 7).2.2.2⟩

/-- Counterexample to claim C3 as stated: in a store with one note whose
chat history is empty, `updateNote(0, { chatHistory: [] })` provides only a
field identical to the current value, yet the state changes — `lastUpdated`
is refreshed from 0 to 5 — because the change test treats any provided
`chatHistory` (an always-truthy array) as a change. -/
theorem updateNote_chatHistory_churn :
    (⟨[⟨0, "alpha", "beta", [], 0⟩], some 0⟩ : NotesState).notes.map (fun n => n.chatHistory)
      = [[]] ∧
    (updateNote ⟨[⟨0, "alpha", "beta", [], 0⟩], some 0⟩ 0 { chatHistory := some [] } 5).notes.map
        (fun n => n.lastUpdated) = [5] ∧
    decide (updateNote ⟨[⟨0, "alpha", "beta", [], 0⟩], some 0⟩ 0 { chatHistory := some [] } 5
      = ⟨[⟨0, "alpha", "beta", [], 0⟩], some 0⟩) = false := by
  decide

/-- Claim C3 as amended: `updateNote(id, data)` no-ops entirely — the whole
store state, `lastUpdated` included, is unchanged — whenever `chatHistory`
is not provided and each provided `title`/`content` field equals the note's
current value; in particular `updateNote(id, {title: sameTitle, content:
sameContent})` never changes `lastUpdated`.  (Providing `chatHistory` always
counts as a change, which is what the counterexample exhibits.) -/
theorem updateNote_noop_spec (s : NotesState) (id : Nat) (d : UpdateData) (now : Nat)
    (hch : d.chatHistory = none)
    (hsame : ∀ n ∈ s.notes, n.id = id →
      (d.title = none ∨ d.title = some n.title) ∧
      (d.content = none ∨ d.content = some n.content)) :
    updateNote s id d now = s := by
  have hfix : mapFirstById id (fun n => if updChanged n d then applyUpd n d now else n) s.notes
      = s.notes := by
    apply mapFirstById_eq_self
    intro n hn hid
    have hs := hsame n hn hid
    have hz : updChanged n d = false := by
      obtain ⟨ht, hc⟩ := hs
      unfold updChanged
      rcases ht with h | h <;> rcases hc with h2 | h2 <;> simp [h, h2, hch]
    simp [hz]
  simp [updateNote, hfix]

/-- Witness for C3 (amended) at a concrete store: updating with the same
title and same content leaves the state, `lastUpdated` included, unchanged. -/
theorem updateNote_noop_witness :
    updateNote ⟨[⟨0, "same title", "same content", [], 3⟩], some 0⟩ 0
      { title := some "same title", content := some "same content" } 99
      = ⟨[⟨0, "same title", "same content", [], 3⟩], some 0⟩ :=
  updateNote_noop_spec ⟨[⟨0, "same title", "same content", [], 3⟩], some 0⟩ 0
    { title := some "same title", content := some "same content" } 99 rfl (by decide)

/-- Claim C4: `addNote(title?)` always succeeds (it is a total function): it
appends a note with the resolved title (the given title, defaulting to
"Untitled Note" exactly when the argument is omitted or the empty string),
the empty-paragraph content `"<p></p>"` (whose markup-stripped text is
empty) and an empty chat history; it makes the new note active and returns
its freshly generated id. -/
theorem addNote_spec (s : NotesState) (title : Option String) (c now : Nat) :
    (addNote s title c now).1.notes
      = s.notes ++ [⟨c, resolveTitle title, "<p></p>", [], now⟩] ∧
    (addNote s title c now).1.activeNoteId = some c ∧
    (addNote s title c now).2.1 = c ∧
    stripHtml "<p></p>" = "" ∧
    ((title = none ∨ title = some "") → resolveTitle title = "Untitled Note") ∧
    (∀ str, title = some str → str ≠ "" → resolveTitle title = str) := by
  refine ⟨rfl, rfl, rfl, by decide, ?_, ?_⟩
  · rintro (h | h) <;> simp [resolveTitle, h]
  · intro str h hne
    simp [resolveTitle, h, hne]

/-- Witness for C4 at concrete inputs: the default kicks in for an omitted
and for an empty title, a non-blank title is kept verbatim, and the new note
becomes active with the returned id. -/
theorem addNote_spec_witness :
    resolveTitle none = "Untitled Note" ∧
    resolveTitle (some "") = "Untitled Note" ∧
    resolveTitle (some "My Note") = "My Note" ∧
    (addNote ⟨[], none⟩ (some "My Note") 0 5).1.activeNoteId = some 0 ∧
    (addNote ⟨[], none⟩ (some "My Note") 0 5).2.1 = 0 :=
  ⟨(addNote_spec ⟨[], none⟩ none 0 5).2.2.2.2.1 (Or.inl rfl),
   (addNote_spec ⟨[], none⟩ (some "") 0 5).2.2.2.2.1 (Or.inr rfl),
   (addNote_spec ⟨[], none⟩ (some "My Note") 0 5).2.2.2.2.2 "My Note" rfl (by decide),
   (addNote_spec ⟨[], none⟩ (some "My Note") 0 5).2.1,
   (addNote_spec ⟨[], none⟩ (some "My Note") 0 5).2.2.1⟩

/-- Counterexample to claim C6 as stated: in the store
`⟨[note with id 0], activeNoteId = 1⟩` (a dangling selection, reachable via
the seeded initial state or `setActiveNote`), id 1 is present in no note,
yet `deleteNote(1)` changes the state: it reassigns `activeNoteId` to 0. -/
theorem deleteNote_dangling_counterexample :
    ((⟨[⟨0, "a", "b", [], 0⟩], some 1⟩ : NotesState).notes.all (fun n => n.id != 1)) = true ∧
    deleteNote ⟨[⟨0, "a", "b", [], 0⟩], some 1⟩ 1 = ⟨[⟨0, "a", "b", [], 0⟩], some 0⟩ ∧
    decide (deleteNote ⟨[⟨0, "a", "b", [], 0⟩], some 1⟩ 1
      = (⟨[⟨0, "a", "b", [], 0⟩], some 1⟩ : NotesState)) = false := by
  decide

/-- Claim C6 as amended: for an id present in no note, `updateNote` and
`addMessage` are unconditional silent no-ops (total functions, state
unchanged), and `deleteNote` is a silent no-op provided `activeNoteId` is
null or references a present note; when `activeNoteId` dangles at exactly
the missing id, `deleteNote` instead repairs the selection (the
counterexample). -/
theorem missing_id_noop_spec (s : NotesState) (id : Nat) (d : UpdateData) (now : Nat)
    (content : String) (sender : Sender) (c : Nat)
    (hid : ∀ n ∈ s.notes, n.id ≠ id) :
    updateNote s id d now = s ∧
    (addMessage s id content sender c now).1 = s ∧
    ((s.activeNoteId = none ∨ ∃ a, s.activeNoteId = some a ∧ ∃ n ∈ s.notes, n.id = a) →
      deleteNote s id = s) := by
  obtain ⟨ns, act⟩ := s
  have hid2 : ∀ n ∈ ns, n.id ≠ id := hid
  have hvac : ∀ (f : Note → Note), mapFirstById id f ns = ns := by
    intro f
    apply mapFirstById_eq_self
    intro n hn hid3
    exact absurd hid3 (hid2 n hn)
  have hfil : ns.filter (fun n => n.id != id) = ns := by
    apply List.filter_eq_self.mpr
    intro n hn
    simpa using hid2 n hn
  refine ⟨by simp [updateNote, hvac], by simp [addMessage, hvac], ?_⟩
  rintro (hnone | ⟨a, ha, n, hn, hna⟩)
  · have hnone2 : act = none := hnone
    subst hnone2
    simp only [deleteNote, hfil]
    simp
  · have ha2 : act = some a := ha
    subst ha2
    have hne : ns ≠ [] := List.ne_nil_of_mem hn
    have haid : a ≠ id := fun h => hid2 n hn (h ▸ hna)
    simp only [deleteNote, hfil]
    rw [if_neg (by simp [haid]), if_neg hne]

/-- Witness for C6 (amended) at a concrete valid store: with no note of id
5, `updateNote`, `addMessage` and `deleteNote` all leave the state exactly
as it was. -/
theorem missing_id_noop_witness :
    updateNote ⟨[⟨0, "a", "b", [], 0⟩], some 0⟩ 5 { title := some "x" } 9
      = ⟨[⟨0, "a", "b", [], 0⟩], some 0⟩ ∧
    (addMessage ⟨[⟨0, "a", "b", [], 0⟩], some 0⟩ 5 "hi" Sender.user 1 9).1
      = ⟨[⟨0, "a", "b", [], 0⟩], some 0⟩ ∧
    deleteNote ⟨[⟨0, "a", "b", [], 0⟩], some 0⟩ 5 = ⟨[⟨0, "a", "b", [], 0⟩], some 0⟩ := by
  have h := missing_id_noop_spec ⟨[⟨0, "a", "b", [], 0⟩], some 0⟩ 5
    { title := some "x" } 9 "hi" Sender.user 1 (by decide)
  exact ⟨h.1, h.2.1, h.2.2 (Or.inr ⟨0, rfl, by decide⟩)⟩

/-- Claim C5: `getFilteredNotes` returns the whole collection in insertion
order for a blank (whitespace-only) term; for every term it is an
order-preserving sublist of `getFilteredNotes("")`; and for every non-blank
term membership is exactly `noteMatches`: a case-insensitive substring hit
on the title or on the markup-stripped content. -/
theorem getFilteredNotes_spec (s : NotesState) (x : String) :
    (strTrim x = "" → getFilteredNotes s x = s.notes) ∧
    List.Sublist (getFilteredNotes s x) (getFilteredNotes s "") ∧
    (strTrim x ≠ "" →
      ∀ n, n ∈ getFilteredNotes s x ↔ n ∈ s.notes ∧ noteMatches (strToLower x) n = true) := by
  have h0 : strTrim "" = "" := rfl
  have hblank : getFilteredNotes s "" = s.notes := by
    simp [getFilteredNotes, h0]
  refine ⟨?_, ?_, ?_⟩
  · intro h
    simp [getFilteredNotes, h]
  · rw [hblank]
    by_cases h : strTrim x = ""
    · simp [getFilteredNotes, h]
    · simp only [getFilteredNotes, if_neg h]
      exact List.filter_sublist s.notes
  · intro h n
    simp [getFilteredNotes, h, List.mem_filter]

/-- Witness for C5 at a concrete two-note store: a whitespace-only term
returns everything, the term "ALP" matches the first note case-insensitively
via its title, and the filtered list is a sublist of the unfiltered one. -/
theorem getFilteredNotes_spec_witness :
    getFilteredNotes ⟨[⟨0, "Alpha", "<p>hello</p>", [], 0⟩, ⟨1, "beta", "<p>world</p>", [], 0⟩], some 0⟩ " "
      = [⟨0, "Alpha", "<p>hello</p>", [], 0⟩, ⟨1, "beta", "<p>world</p>", [], 0⟩] ∧
    (⟨0, "Alpha", "<p>hello</p>", [], 0⟩ : Note)
      ∈ getFilteredNotes ⟨[⟨0, "Alpha", "<p>hello</p>", [], 0⟩, ⟨1, "beta", "<p>world</p>", [], 0⟩], some 0⟩ "ALP" ∧
    List.Sublist
      (getFilteredNotes ⟨[⟨0, "Alpha", "<p>hello</p>", [], 0⟩, ⟨1, "beta", "<p>world</p>", [], 0⟩], some 0⟩ "ALP")
      (getFilteredNotes ⟨[⟨0, "Alpha", "<p>hello</p>", [], 0⟩, ⟨1, "beta", "<p>world</p>", [], 0⟩], some 0⟩ "") :=
  ⟨(getFilteredNotes_spec ⟨[⟨0, "Alpha", "<p>hello</p>", [], 0⟩, ⟨1, "beta", "<p>world</p>", [], 0⟩], some 0⟩ " ").1
      (by decide),
   ((getFilteredNotes_spec ⟨[⟨0, "Alpha", "<p>hello</p>", [], 0⟩, ⟨1, "beta", "<p>world</p>", [], 0⟩], some 0⟩ "ALP").2.2
      (by decide) ⟨0, "Alpha", "<p>hello</p>", [], 0⟩).mpr (by decide),
   (getFilteredNotes_spec ⟨[⟨0, "Alpha", "<p>hello</p>", [], 0⟩, ⟨1, "beta", "<p>world</p>", [], 0⟩], some 0⟩ "ALP").2.1⟩

/-- Claim C8: whenever the lowercased utterance contains "markdown" and none
of "?", "how", "what", the matcher answers with the fixed markdown
topic-notice reply — whatever other topic keywords are present (the markdown
branch is first in the topic group) and whatever the context and random
draw, so no later rule (in particular rule 5's markdown question branch) is
ever consulted. -/
theorem markdown_topic_priority (query : String) (context : List String) (r : Nat)
    (hmd : strContains (strToLower query) "markdown" = true)
    (hq : strContains (strToLower query) "?" = false)
    (hhow : strContains (strToLower query) "how" = false)
    (hwhat : strContains (strToLower query) "what" = false) :
    generateIntelligentResponse query context r = markdownMentionReply := by
  have hlow : strToLower "markdown" = "markdown" := by decide
  have hmem : "markdown" ∈ detectTopics (strToLower query) := by
    apply List.mem_filter.mpr
    refine ⟨by simp [NOTE_TOPICS], ?_⟩
    rw [hlow]
    exact hmd
  have hcont : (detectTopics (strToLower query)).contains "markdown" = true :=
    List.elem_iff.mpr hmem
  have hlen : 0 < (detectTopics (strToLower query)).length :=
    List.length_pos.mpr (List.ne_nil_of_mem hmem)
  have htr : topicRule (strToLower query) (detectTopics (strToLower query))
      = some markdownMentionReply := by
    unfold topicRule
    rw [if_pos ⟨hlen, hq, hhow, hwhat⟩, if_pos hcont]
  simp [generateIntelligentResponse, htr]

/-- Witness for C8 at a concrete utterance that mentions markdown along with
another topic keyword (lists) but asks no question: the markdown topic
notice wins. -/
theorem markdown_topic_priority_witness :
    generateIntelligentResponse "I use markdown and lists daily" ["earlier message"] 4
      = markdownMentionReply :=
  markdown_topic_priority "I use markdown and lists daily" ["earlier message"] 4
    (by decide) (by decide) (by decide) (by decide)

/-- Claim C9: when no earlier rule matches (no topic-rule hit, no greeting,
no gratitude, no question-rule hit, no template-rule hit, no help keyword)
and the rolling context is empty, the matcher returns an element of the
fixed fallback list `thoughtfulResponses` — for every value of the random
source — and the echo variant of that list contains the first 30 characters
of the original, non-lowercased utterance verbatim. -/
theorem fallback_spec (query : String) (r : Nat)
    (h1 : topicRule (strToLower query) (detectTopics (strToLower query)) = none)
    (h2 : isGreeting (strToLower query) = false)
    (h3 : isThanks (strToLower query) = false)
    (h4 : questionRule (strToLower query) r = none)
    (h5 : templateRule (strToLower query) = none)
    (h6 : strContains (strToLower query) "help" = false)
    (h7 : strContains (strToLower query) "assist" = false) :
    generateIntelligentResponse query [] r ∈ thoughtfulResponses query ∧
    strContains (echoVariant query) (strTake query 30) = true := by
  constructor
  · have hrun : generateIntelligentResponse query [] r
        = (thoughtfulResponses query).getD (r % (thoughtfulResponses query).length) "" := by
      simp [generateIntelligentResponse, h1, h2, h3, h4, h5, h6, h7, contextRule]
    rw [hrun]
    apply getD_mem
    apply Nat.mod_lt
    simp [thoughtfulResponses]
  · show hasSub (echoVariant query).data (strTake query 30).data = true
    have hdata : (echoVariant query).data
        = ("I understand you" ++ apos ++ "re asking about ").data
          ++ ((strTake query 30).data
          ++ ("... Could you tell me more about what you" ++ apos ++ "re trying to achieve so I can provide more targeted assistance?").data) := by
      simp [echoVariant, List.append_assoc]
    rw [hdata]
    exact hasSub_infix _ _ _

/-- Witness for C9 at a concrete utterance matching no rule: the reply is
one of the five fallback strings for the chosen draw, and the echo variant
carries the utterance's first 30 characters verbatim. -/
theorem fallback_spec_witness :
    generateIntelligentResponse "qqq zzz" [] 7 ∈ thoughtfulResponses "qqq zzz" ∧
    strContains (echoVariant "qqq zzz") (strTake "qqq zzz" 30) = true :=
  fallback_spec "qqq zzz" 7 (by decide) (by decide) (by decide) (by decide)
    (by decide) (by decide) (by decide)

theorem run_cons (cs : CompState) (e : EditorEvent) (evs : List EditorEvent) :
    run cs (e :: evs)
      = ((run (step cs e).1 evs).1, (step cs e).2 ++ (run (step cs e).1 evs).2) :=
  rfl

theorem run_append (evs1 evs2 : List EditorEvent) : ∀ cs : CompState,
    run cs (evs1 ++ evs2)
      = ((run (run cs evs1).1 evs2).1, (run cs evs1).2 ++ (run (run cs evs1).1 evs2).2) := by
  induction evs1 with
  | nil => intro cs; simp [run]
  | cons e rest ih =>
    intro cs
    rw [List.cons_append, run_cons, ih (step cs e).1, run_cons cs e rest]
    simp [List.append_assoc]

theorem burst_append (xs ys : List (String × String × Nat)) :
    burst (xs ++ ys) = burst xs ++ burst ys := by
  induction xs with
  | nil => rfl
  | cons p rest ih =>
    obtain ⟨t, c, g⟩ := p
    simp [burst, ih]

theorem step_edit (cs : CompState) (t c : String) (a : Note)
    (ha : getActiveNote cs.store = some a) :
    step cs (.edit t c)
      = ({ cs with title := t, content := c, isEdited := true, timer := some 1000 }, []) := by
  simp [step, ha]

theorem step_wait_lt (cs : CompState) (d r : Nat) (hr : cs.timer = some r) (h : d < r) :
    step cs (.wait d) = ({ cs with clock := cs.clock + d, timer := some (r - d) }, []) := by
  simp [step, hr, h]

theorem run_burst_quiet (ps : List (String × String × Nat)) : ∀ cs : CompState, ∀ a : Note,
    getActiveNote cs.store = some a → (∀ p ∈ ps, p.2.2 < 1000) →
    (run cs (burst ps)).2 = [] ∧ (run cs (burst ps)).1.store = cs.store := by
  induction ps with
  | nil =>
    intro cs a ha hg
    exact ⟨rfl, rfl⟩
  | cons p rest ih =>
    obtain ⟨t, c, g⟩ := p
    intro cs a ha hg
    have hg1 : g < 1000 := by simpa using hg (t, c, g) (by simp)
    have hgrest : ∀ q ∈ rest, q.2.2 < 1000 := fun q hq => hg q (by simp [hq])
    have hstep1 := step_edit cs t c a ha
    simp only [burst, run_cons, hstep1]
    have hstep2 := step_wait_lt
      { cs with title := t, content := c, isEdited := true, timer := some 1000 } g 1000 rfl hg1
    simp only [hstep2]
    have hrec := ih
      { cs with
          title := t, content := c, isEdited := true,
          clock := cs.clock + g, timer := some (1000 - g) } a ha hgrest
    exact ⟨by simp [hrec.1], by simp [hrec.2]⟩

theorem run_final_commit (cs : CompState) (a : Note) (ha : getActiveNote cs.store = some a)
    (tk ck : String) (gk : Nat) (hgk : gk < 1000) (d2 : Nat) :
    (run cs [.edit tk ck, .wait gk, .wait 1000, .wait d2]).2 = [(a.id, tk, ck)] := by
  rw [run_cons, step_edit cs tk ck a ha]
  rw [run_cons, step_wait_lt _ gk 1000 rfl hgk]
  rw [run_cons]
  have hnlt : ¬ (1000 < 1000 - gk) := Nat.not_lt.mpr (Nat.sub_le 1000 gk)
  have hfire : step
      { cs with
          title := tk, content := ck, isEdited := true,
          clock := cs.clock + gk, timer := some (1000 - gk) } (.wait 1000)
      = ({ cs with
            title := tk, content := ck, isEdited := false,
            clock := cs.clock + gk + 1000, timer := none,
            store := updateNote cs.store a.id
              { title := some tk, content := some ck, chatHistory := none }
              (cs.clock + gk + (1000 - gk)) },
          [(a.id, tk, ck)]) := by
    simp [step, hnlt, ha]
  rw [hfire]
  simp [run, step]

/-- Claim C7: with an active note `a`, (i) an edit arms a 1000 ms debounce
timeout and commits nothing; (ii) while a timeout is pending, a further edit
after `g < r` ms commits nothing and re-arms a fresh 1000 ms timeout, so
(iii) a burst of edits each followed by < 1000 ms of activity, closed by
1000 ms (and then arbitrarily more) of quiet, commits exactly one
`updateNote`, carrying only the final title/content, against the note that
was active when the timeout was armed; and (iv) switching the active note
while a timeout is pending cancels it: no commit ever fires afterwards, and
no note's stored fields are touched by the switch or the subsequent waiting
— the old timer never writes the previous note's title/content into the
newly active note. -/
theorem autosave_debounce_spec (cs : CompState) (a : Note)
    (ha : getActiveNote cs.store = some a)
    (t c tk ck : String) (ps : List (String × String × Nat))
    (g gk r i d d2 : Nat)
    (hps : ∀ p ∈ ps, p.2.2 < 1000) (hgk : gk < 1000)
    (hr : cs.timer = some r) (hgr : g < r) :
    ((step cs (.edit t c)).1.timer = some 1000 ∧ (step cs (.edit t c)).2 = []) ∧
    ((run cs [.wait g, .edit t c]).2 = []
      ∧ (run cs [.wait g, .edit t c]).1.timer = some 1000) ∧
    (run cs (burst (ps ++ [(tk, ck, gk)]) ++ [.wait 1000, .wait d2])).2 = [(a.id, tk, ck)] ∧
    ((run cs [.switchNote i, .wait d]).2 = []
      ∧ (run cs [.switchNote i]).1.timer = none
      ∧ (run cs [.switchNote i, .wait d]).1.store.notes = cs.store.notes) := by
  refine ⟨?_, ?_, ?_, ?_⟩
  · rw [step_edit cs t c a ha]
    exact ⟨rfl, rfl⟩
  · have h1 := step_wait_lt cs g r hr hgr
    have h2 := step_edit { cs with clock := cs.clock + g, timer := some (r - g) } t c a ha
    simp [run_cons, run, h1, h2]
  · have hevs : burst (ps ++ [(tk, ck, gk)]) ++ [EditorEvent.wait 1000, EditorEvent.wait d2]
        = burst ps ++ [EditorEvent.edit tk ck, EditorEvent.wait gk,
            EditorEvent.wait 1000, EditorEvent.wait d2] := by
      rw [burst_append]
      simp [burst]
    rw [hevs, run_append]
    have hq := run_burst_quiet ps cs a ha hps
    have ha2 : getActiveNote (run cs (burst ps)).1.store = some a := by
      rw [hq.2]; exact ha
    rw [hq.1, run_final_commit (run cs (burst ps)).1 a ha2 tk ck gk hgk d2]
    rfl
  · cases hg2 : getActiveNote (setActiveNote cs.store i) with
    | some n =>
      refine ⟨?_, ?_, ?_⟩
      · simp [run, step, hg2]
      · simp [run, step, hg2]
      · simp only [run, step, hg2]
        simp [setActiveNote]
    | none =>
      refine ⟨?_, ?_, ?_⟩
      · simp [run, step, hg2]
      · simp [run, step, hg2]
      · simp only [run, step, hg2]
        simp [setActiveNote]

/-- Witness for C7 at a concrete session (active note 0, a pending 500 ms
timeout): two edits 10 ms apart followed by quiet commit exactly once with
the final fields, and switching to note 1 with the timeout pending commits
nothing ever. -/
theorem autosave_debounce_witness :
    (run ⟨⟨[⟨0, "T", "C", [], 0⟩, ⟨1, "U", "D", [], 0⟩], some 0⟩, "T", "C", true, some 500, 0⟩
        (burst ([("t1", "c1", 200)] ++ [("T2", "C2", 10)]) ++ [.wait 1000, .wait 777])).2
      = [(0, "T2", "C2")] ∧
    (run ⟨⟨[⟨0, "T", "C", [], 0⟩, ⟨1, "U", "D", [], 0⟩], some 0⟩, "T", "C", true, some 500, 0⟩
        [.switchNote 1, .wait 5000]).2 = [] := by
  have h := autosave_debounce_spec
    ⟨⟨[⟨0, "T", "C", [], 0⟩, ⟨1, "U", "D", [], 0⟩], some 0⟩, "T", "C", true, some 500, 0⟩
    ⟨0, "T", "C", [], 0⟩ (by decide) "X" "Y" "T2" "C2" [("t1", "c1", 200)]
    100 10 500 1 5000 777 (by decide) (by decide) (by decide) (by decide)
  exact ⟨h.2.2.1, h.2.2.2.1⟩
